import Mathlib

/-!
Shallow embedding of the autoinsight vehicle-listing pipeline
(src/evaluator/scraper.py, src/evaluator/ranking.py, src/evaluator/views.py).

Parsed HTML pages are modelled by the data they yield to the code:
a detail page is the text of its first h1 heading (if any) together with
the label/value rows of its table.moret (if present); a search-results
page is the list of per-card link-extraction outcomes.  Network effects
are modelled by oracles (functions from page number / URL to an outcome),
and the wall-clock sleeps of the orchestrator are recorded as events.
-/

/-- One label/value row of the detail table: the stripped text of a
p.moreh label cell, and the stripped text of the adjacent value td.
value = none models a p.moreh with no parent td or no next sibling td
(the code skips the row in that case). -/
structure DetailRow where
  label : String
  value : Option String
deriving DecidableEq, Repr

/-- A parsed detail page (BeautifulSoup document) reduced to the data
_stage2_parse_detail reads from it: the stripped text of the first h1
(none when the page has no h1), and the rows of the table with class
moret (none when that table is absent). -/
structure DetailPage where
  h1 : Option String
  table : Option (List DetailRow)
deriving DecidableEq, Repr

/-- The vehicle dict built by _stage2_parse_detail.  price, mileage and
year are Int-or-None in the source, hence Option Int here. -/
structure Vehicle where
  url : String
  name : String
  price : Option Int
  mileage : Option Int
  year : Option Int
  description : String
  raw_text : String
  make : String
  model : String
  gear : String
  fuel_type : String
  options : String
  engine_cc : String
  details : String
  contact : String
deriving DecidableEq, Repr

instance : Inhabited Vehicle :=
  ⟨{ url := "", name := "", price := none, mileage := none, year := none,
     description := "", raw_text := "", make := "", model := "", gear := "",
     fuel_type := "", options := "", engine_cc := "", details := "",
     contact := "" }⟩

/-- The initial vehicle dict of _stage2_parse_detail: every field empty
or None except url. -/
def initVehicle (url : String) : Vehicle :=
  { url := url, name := "", price := none, mileage := none, year := none,
    description := "", raw_text := "", make := "", model := "", gear := "",
    fuel_type := "", options := "", engine_cc := "", details := "",
    contact := "" }

/-- Numeric value of an ASCII digit character. -/
def digitVal (c : Char) : Nat := c.toNat - 48

/-- Decimal value of a list of digit characters. -/
def natOfDigits (l : List Char) : Nat := l.foldl (fun a c => a * 10 + digitVal c) 0

/-- Embedding of int(re.sub(r'[^\d]', '', value)): delete every
non-digit character and parse what is left; int('') raises ValueError,
which the source catches and leaves the field untouched, hence none. -/
def stripNonDigitsToInt (s : String) : Option Int :=
  let ds := s.toList.filter Char.isDigit
  if ds.isEmpty then none else some (Int.ofNat (natOfDigits ds))

/-- re.search(r'\d+', s) succeeds iff s has a digit. -/
def containsDigit (s : String) : Bool := s.toList.any Char.isDigit

/-- re.search(r'[\d,]+', s) succeeds iff s has a digit or a comma. -/
def containsDigitOrComma (s : String) : Bool :=
  s.toList.any (fun c => c.isDigit || c = ',')

/-- re.search(r'(\d{4})', s): the first run of four consecutive digits,
as an integer. -/
def firstFourDigitRun : List Char → Option Int
  | a :: b :: c :: d :: rest =>
    if a.isDigit && b.isDigit && c.isDigit && d.isDigit then
      some (Int.ofNat (natOfDigits [a, b, c, d]))
    else firstFourDigitRun (b :: c :: d :: rest)
  | _ => none

/-- One iteration of the label-dispatch loop of _stage2_parse_detail:
given a non-empty label and the value-cell text, update the vehicle
dict.  Unrecognized labels leave the dict unchanged. -/
def applyRow (v : Vehicle) (label value : String) : Vehicle :=
  if label = "Contact" then { v with contact := value }
  else if label = "Price" then
    if value ≠ "" && containsDigitOrComma value then
      match stripNonDigitsToInt value with
      | some p => { v with price := some p }
      | none => v
    else v
  else if label = "Make" then { v with make := value }
  else if label = "Model" then { v with model := value }
  else if label = "YOM" then
    if value ≠ "" then
      match firstFourDigitRun value.toList with
      | some y => { v with year := some y }
      | none => v
    else v
  else if label = "Mileage (km)" then
    if value ≠ "" && value ≠ "-" && containsDigit value then
      match stripNonDigitsToInt value with
      | some m => { v with mileage := some m }
      | none => v
    else v
  else if label = "Gear" then { v with gear := value }
  else if label = "Fuel Type" then { v with fuel_type := value }
  else if label = "Options" then
    { v with options := if value ≠ "" then value.take 500 else "" }
  else if label = "Engine (cc)" then
    { v with engine_cc := if value ≠ "" then value.trim else "" }
  else if label = "Details" then
    { v with details := if value ≠ "" then value.take 3000 else "" }
  else v

/-- Processing of one table row: rows whose value cell is structurally
missing, or whose label text is empty, are skipped. -/
def stepRow (v : Vehicle) (r : DetailRow) : Vehicle :=
  match r.value with
  | none => v
  | some val => if r.label = "" then v else applyRow v r.label val

/-- The tail of _stage2_parse_detail (lines 266-272): derive the
description from the details, and raw_text as the space-join of the
non-empty (truthy) parts, where a zero price or mileage is falsy in
Python and therefore omitted. -/
def finalizeVehicle (v2 : Vehicle) : Vehicle :=
  let v3 := { v2 with description := v2.details.take 1500 }
  let parts : List String :=
    [v3.name, v3.make, v3.model, v3.contact]
      ++ (match v3.price with
          | some p => if p ≠ 0 then ["Rs. " ++ toString p] else []
          | none => [])
      ++ (match v3.mileage with
          | some m => if m ≠ 0 then [toString m ++ " km"] else []
          | none => [])
  { v3 with raw_text := String.intercalate " " (parts.filter (fun s => s ≠ "")) }

/-- Embedding of _stage2_parse_detail(soup, url).  soup = none models
the absent page (fetch returned None); a present page contributes its
h1 text as the name, then its table rows (when the table exists), then
the derived description and raw_text fields. -/
def parseDetail (soup : Option DetailPage) (url : String) : Vehicle :=
  match soup with
  | none => initVehicle url
  | some page =>
    let v0 := initVehicle url
    let v1 := match page.h1 with
      | some t => { v0 with name := t.take 200 }
      | none => v0
    match page.table with
    | none => v1
    | some rows => finalizeVehicle (rows.foldl stepRow v1)

/-! URL builder (_make_search_url, scraper.py lines 44-98) and the
caller-side bound parsing (_int in views.py). -/

/-- Base URL constant of scraper.py. -/
def baseUrl : String := "https://riyasewana.com"

/-- A Python value handed to _make_search_url as a year/price bound:
the callers pass int or None, but the function itself may be handed any
value, and a non-numeric string matters for the error-handling claims. -/
inductive PyVal where
  | int (n : Int)
  | str (s : String)
deriving DecidableEq, Repr

/-- Failure of _make_search_url: the except-branch wraps any exception
in RuntimeError('Failed to build search URL: ...'). -/
inductive UrlBuildError where
  | urlBuild
deriving DecidableEq, Repr

/-- Python evaluation of (b is not None and b > 0): comparing a str
with an int raises TypeError, which the enclosing handler turns into
the RuntimeError modelled by UrlBuildError. -/
def pyPosCheck : Option PyVal → Except UrlBuildError Bool
  | none => .ok false
  | some (.int n) => .ok (decide (0 < n))
  | some (.str _) => .error .urlBuild

/-- Python evaluation of (b is not None and b >= 0). -/
def pyNonnegCheck : Option PyVal → Except UrlBuildError Bool
  | none => .ok false
  | some (.int n) => .ok (decide (0 ≤ n))
  | some (.str _) => .error .urlBuild

/-- int(b) for a bound that passed its comparison (hence an int). -/
def pyIntVal (d : Int) : Option PyVal → Int
  | some (.int n) => n
  | _ => d

/-- Python truthiness of an optional string (None and '' are falsy). -/
def strTruthy : Option String → Bool
  | none => false
  | some s => s ≠ ""

/-- Embedding of _slug: None for absent/empty/whitespace-only input,
otherwise strip, lowercase, and replace spaces with hyphens. -/
def slug : Option String → Option String
  | none => none
  | some s => if s.trim = "" then none else some ((s.trim.toLower).replace " " "-")

/-- path.strip('/') of the source: drop leading and trailing slashes. -/
def stripSlashes (s : String) : String :=
  String.mk (((s.toList.dropWhile (fun c => c = '/')).reverse.dropWhile
    (fun c => c = '/')).reverse)

/-- The ?page=N suffix, appended only when page > 1. -/
def pageSuffix (page : Int) : String :=
  if 1 < page then "?page=" ++ toString page else ""

/-- Embedding of _make_search_url.  currentYear stands for
datetime.date.today().year.  The has_filters tuple is evaluated
eagerly, in source order, so a string bound raises before anything
else; after it, bounds are known to be int-or-None and every remaining
step is total, so the only error source is the bound comparisons. -/
def makeSearchUrl (make model location : Option String)
    (minYear maxYear minPrice maxPrice : Option PyVal)
    (page : Int) (currentYear : Int) : Except UrlBuildError String := do
  let minYearPos ← pyPosCheck minYear
  let maxYearPos ← pyPosCheck maxYear
  let minPriceNonneg ← pyNonnegCheck minPrice
  let maxPricePos ← pyPosCheck maxPrice
  let hasFilters := strTruthy make || strTruthy model || strTruthy location ||
    minYearPos || maxYearPos || minPriceNonneg || maxPricePos
  if !hasFilters then
    return baseUrl ++ "/search" ++ pageSuffix page
  let path0 := "/search/cars"
  let path1 := match slug make with
    | some s => path0 ++ "/" ++ s
    | none => path0
  let path2 := match slug model with
    | some s => path1 ++ "/" ++ s
    | none => path1
  let path3 := match slug location with
    | some s => path2 ++ "/" ++ s
    | none => path2
  let path4 :=
    if minYearPos || maxYearPos then
      let yearMin := if minYearPos then pyIntVal 2000 minYear else 2000
      let yearMax := if maxYearPos then pyIntVal 0 maxYear else currentYear
      path3 ++ "/" ++ toString yearMin ++ "-" ++ toString yearMax
    else path3
  let path5 :=
    if minPriceNonneg || maxPricePos then
      let priceMin := if minPriceNonneg then pyIntVal 0 minPrice else 0
      let priceMax := if maxPricePos then pyIntVal 0 maxPrice else 50000000
      path4 ++ "/price-" ++ toString priceMin ++ "-" ++ toString priceMax
    else path4
  return baseUrl ++ "/" ++ stripSlashes path5 ++ pageSuffix page

/-- Python int() digit-group syntax: digits optionally separated by
single underscores, no leading or trailing underscore. -/
def noDoubleUnderscore : List Char → Bool
  | '_' :: '_' :: _ => false
  | _ :: rest => noDoubleUnderscore rest
  | [] => true

/-- Validity of the digit part of an int() literal. -/
def validDigitGroup (l : List Char) : Bool :=
  match l with
  | [] => false
  | c :: _ =>
    c.isDigit && (match l.getLast? with | some d => d.isDigit | none => false) &&
      l.all (fun ch => ch.isDigit || ch = '_') && noDoubleUnderscore l

/-- Embedding of Python int(s) on an already-stripped string: optional
sign, then an underscore-grouped digit run; None models ValueError. -/
def pyIntParse (s : String) : Option Int :=
  let signAndDigits : Bool × List Char :=
    match s.toList with
    | '-' :: rest => (true, rest)
    | '+' :: rest => (false, rest)
    | l => (false, l)
  if validDigitGroup signAndDigits.2 then
    let n : Int := Int.ofNat (natOfDigits (signAndDigits.2.filter (fun c => c ≠ '_')))
    some (if signAndDigits.1 then -n else n)
  else none

/-- Embedding of _int in views.py: strip, delete commas, parse as int,
with any ValueError (malformed text) coerced to None, i.e. unset. -/
def viewsInt (raw : Option String) : Option Int :=
  let val := ((raw.getD "").trim).replace "," ""
  if val = "" then none else pyIntParse val

/-- A views-parsed bound as passed on to _make_search_url. -/
def viewsBound (raw : Option String) : Option PyVal :=
  (viewsInt raw).map PyVal.int

/-! Ranking adapter (rank_vehicles_with_llm, ranking.py lines 39-120).
The LLM transport and JSON decoding are the external collaborator: a
response is either a failure (any exception on the adapter path - JSON
parse error, schema violation, missing key turned into [], transport or
configuration error) or the decoded ranked_indices list of integers. -/

/-- Outcome of the LLM call and response decoding, as seen by the code
after json.loads and the isinstance(list) check. -/
inductive RankResp where
  | fail
  | ok (rankedIndices : List Int)
deriving DecidableEq, Repr

/-- The while-loop of ranking.py lines 103-108: while fewer than 10 and
fewer than len(vehicles) indices are chosen, append the smallest index
not yet used (used_indices is maintained as exactly the set of elements
of valid_indices).  Each pass of the inner for-loop appends at most one
index, so 10 passes bound the Python loop whenever it terminates; the
fuel-exhaustion and no-unused-index branches return valid unchanged and
are proved unreachable under the loop guard. -/
def fillIndices (n : Nat) : Nat → List Nat → List Nat
  | 0, valid => valid
  | fuel + 1, valid =>
    if valid.length < 10 && valid.length < n then
      match (List.range n).find? (fun i => !(valid.contains i)) with
      | some i => fillIndices n fuel (valid ++ [i])
      | none => valid
    else valid

/-- Embedding of rank_vehicles_with_llm.  The int(x) conversion and
bound check of line 98-99 keep exactly the in-range indices; the final
list comprehension vehicles[i] would raise IndexError on an
out-of-range index, which the broad except turns into the first-10
fallback, hence the all-guard. -/
def rankVehiclesWithLLM (vehicles : List Vehicle) (resp : RankResp) : List Vehicle :=
  if vehicles.isEmpty then []
  else if vehicles.length ≤ 10 then vehicles
  else
    match resp with
    | .fail => vehicles.take 10
    | .ok rankedIndices =>
      let n := vehicles.length
      let validIndices :=
        ((rankedIndices.filter (fun x => decide (0 ≤ x) && decide (x < (n : Int)))).map
          Int.toNat).take 10
      let filled := fillIndices n 10 validIndices
      let idxs := filled.take 10
      if idxs.all (fun i => i < n) then
        idxs.map (fun i => vehicles.getD i default)
      else vehicles.take 10

/-! Fetch orchestrator (fetch_listings, scraper.py lines 321-467) and
Stage 2 collection (_stage2_collect_vehicles, lines 279-318). -/

/-- A Stage-1 stub: the dict built by _extract_link_from_card. -/
structure Stub where
  url : String
  name : String
deriving DecidableEq, Repr

/-- Outcome of fetching and reading one search-results page.  ok
carries, per card found by _extract_cards, the result of
_extract_link_from_card (none when the card has no usable link);
httpErr is raise_for_status on a non-2xx response; parseErr is an
exception inside the card-processing try block. -/
inductive FetchOutcome where
  | ok (cards : List (Option Stub))
  | httpErr (status : Nat)
  | timeout
  | connErr
  | reqErr
  | parseErr

/-- The typed fatal errors of the orchestrator (both surfaced as
RuntimeError in the source): warm-up connectivity failure, and the 403
escalation of Stage 1. -/
inductive FatalErr where
  | connectivity
  | accessDenied
deriving DecidableEq, Repr

/-- MAX_RESULTS of fetch_listings. -/
def maxResults : Nat := 20

/-- The inner card loop of Stage 1 (lines 423-428): append each card's
link entry while under the cap, skipping cards with no entry or an
empty url. -/
def addCardLinks (links : List Stub) (cards : List (Option Stub)) : List Stub :=
  cards.foldl
    (fun acc c =>
      if maxResults ≤ acc.length then acc
      else
        match c with
        | some e => if e.url ≠ "" then acc ++ [e] else acc
        | none => acc)
    links

/-- The Stage-1 page loop (lines 366-442) over the remaining page
numbers.  Per-page timeout, connection, request, non-403 HTTP and parse
errors are recorded in the error list and the loop continues; an HTTP
403 raises the fatal AccessDenied; a page with zero cards, or the
result cap, ends the loop normally. -/
def stage1Go (fetch : Nat → FetchOutcome) :
    List Nat → List Stub → List String → Except FatalErr (List Stub × List String)
  | [], links, errs => .ok (links, errs)
  | page :: rest, links, errs =>
    if maxResults ≤ links.length then .ok (links, errs)
    else
      match fetch page with
      | .timeout =>
        stage1Go fetch rest links (errs ++ ["Timeout on page " ++ toString page])
      | .httpErr status =>
        if status = 403 then .error .accessDenied
        else
          stage1Go fetch rest links
            (errs ++ ["HTTP " ++ toString status ++ " on page " ++ toString page])
      | .connErr =>
        stage1Go fetch rest links (errs ++ ["Connection error on page " ++ toString page])
      | .reqErr =>
        stage1Go fetch rest links (errs ++ ["Request error on page " ++ toString page])
      | .parseErr =>
        stage1Go fetch rest links (errs ++ ["Error parsing page " ++ toString page])
      | .ok cards =>
        if cards.isEmpty then .ok (links, errs)
        else stage1Go fetch rest (addCardLinks links cards) errs

/-- Stage 1 of fetch_listings: pages 1 .. maxPages. -/
def stage1 (fetch : Nat → FetchOutcome) (maxPages : Nat) :
    Except FatalErr (List Stub × List String) :=
  stage1Go fetch (List.range' 1 maxPages) [] []

/-- Embedding of _stage2_fetch_detail_page: an empty or whitespace-only
URL yields None without a request; otherwise the network oracle is
consulted with the stripped URL (every fetch or HTML error inside the
function is caught and returned as None, so the oracle's answer is
already an Option). -/
def stage2FetchDetailPage (net : String → Option DetailPage) (url : String) :
    Option DetailPage :=
  if url.trim = "" then none else net url.trim

/-- The per-stub body of the Stage-2 loop (lines 300-303): fetch, parse,
and substitute the Stage-1 display name when the parsed name is empty
and a fallback exists. -/
def processStub (net : String → Option DetailPage) (e : Stub) : Vehicle :=
  let parsed := parseDetail (stage2FetchDetailPage net e.url) e.url
  if parsed.name = "" ∧ e.name ≠ "" then { parsed with name := e.name } else parsed

/-- Observable Stage-2 events: a detail-page fetch, and the 0.3-second
inter-request sleep. -/
inductive S2Event where
  | fetch (url : String)
  | sleep
deriving DecidableEq, Repr

/-- The Stage-2 loop (lines 290-313): enumerate the stubs, stop at the
limit, skip entries with an empty url, and sleep 0.3 after an entry
whenever i < len(vehicle_links) - 1, where total is the (constant)
length of the full stub list. -/
def stage2Go (net : String → Option DetailPage) (total limit : Nat) :
    Nat → List Stub → List Vehicle × List S2Event
  | _, [] => ([], [])
  | i, e :: rest =>
    if limit ≤ i then ([], [])
    else if e.url = "" then stage2Go net total limit (i + 1) rest
    else
      let v := processStub net e
      let evs := [S2Event.fetch e.url] ++ (if i < total - 1 then [S2Event.sleep] else [])
      let tail := stage2Go net total limit (i + 1) rest
      (v :: tail.1, evs ++ tail.2)

/-- Embedding of _stage2_collect_vehicles: the collected vehicle dicts
together with the trace of fetches and sleeps. -/
def stage2Collect (net : String → Option DetailPage) (entries : List Stub)
    (limit : Nat) : List Vehicle × List S2Event :=
  if entries.isEmpty then ([], [])
  else stage2Go net entries.length limit 0 entries

/-- Outcome of the warm-up request to the site root (lines 352-360). -/
inductive WarmupOutcome where
  | ok
  | timeout
  | connErr
  | reqErr
deriving DecidableEq, Repr

/-- Embedding of fetch_listings: warm-up, Stage 1, early empty return,
Stage 2. -/
def fetchListings (warm : WarmupOutcome) (fetch : Nat → FetchOutcome)
    (net : String → Option DetailPage) (maxPages : Nat) :
    Except FatalErr (List Vehicle) :=
  match warm with
  | .timeout => .error .connectivity
  | .connErr => .error .connectivity
  | .reqErr => .error .connectivity
  | .ok =>
    match stage1 fetch maxPages with
    | .error e => .error e
    | .ok (links, _errs) =>
      if links.isEmpty then .ok []
      else .ok (stage2Collect net links maxResults).1

/-! Concrete instances used by witnesses and counterexamples. -/

/-- Eleven pairwise distinct vehicle dicts (distinct prices). -/
def vs11 : List Vehicle :=
  (List.range 11).map
    (fun i => { initVehicle "" with price := some (Int.ofNat i) })

/-- Three stubs with distinct URLs. -/
def stubs3 : List Stub := [⟨"u1", "a"⟩, ⟨"u2", "b"⟩, ⟨"u3", "c"⟩]

/-- A network oracle on which every detail fetch fails (returns None). -/
def netNone : String → Option DetailPage := fun _ => none

/-- A Stage-1 oracle: page 2 answers 403, every other page one card. -/
def fetch403At2 : Nat → FetchOutcome :=
  fun p => if p = 2 then .httpErr 403 else .ok [some ⟨"u", "n"⟩]

/-- A detail page with a title heading but no detail table. -/
def pageNoTable : DetailPage := { h1 := some "Toyota Prius 2017", table := none }

/-- A detail table with a dash Mileage row followed by a numeric one. -/
def pageTwoMileageRows : DetailPage :=
  { h1 := none, table := some [⟨"Mileage (km)", some "-"⟩, ⟨"Mileage (km)", some "123,45"⟩] }

/-- A detail table whose only Mileage row has the dash placeholder. -/
def pageDashMileage : DetailPage :=
  { h1 := none, table := some [⟨"Price", some "Rs. 4,500,000"⟩, ⟨"Mileage (km)", some "-"⟩] }

/-- A detail table setting price, year and mileage. -/
def pageFull : DetailPage :=
  { h1 := some "Car",
    table := some [⟨"Price", some "Rs. 4,500,000"⟩, ⟨"YOM", some "2017"⟩,
      ⟨"Mileage (km)", some "120,000 km"⟩] }

/-! Theorems. -/

set_option maxRecDepth 8192

/-- C6: for every page number, when every filter field is unset (empty
or absent), the URL builder returns the unfiltered root listing path
/search, with a ?page=N query parameter appended iff page > 1. -/
theorem makeSearchUrl_no_filters (mk md lc : Option String)
    (h1 : mk = none ∨ mk = some "") (h2 : md = none ∨ md = some "")
    (h3 : lc = none ∨ lc = some "") (page currentYear : Int) :
    makeSearchUrl mk md lc none none none none page currentYear =
      Except.ok (baseUrl ++ "/search" ++
        (if 1 < page then "?page=" ++ toString page else "")) := by
  rcases h1 with rfl | rfl <;> rcases h2 with rfl | rfl <;> rcases h3 with rfl | rfl <;> rfl

/-- Witness for C6 at page 2 with all filters absent. -/
theorem makeSearchUrl_no_filters_witness :
    makeSearchUrl none (some "") none none none none none 2 2025 =
      Except.ok "https://riyasewana.com/search?page=2" :=
  makeSearchUrl_no_filters none (some "") none (Or.inl rfl) (Or.inr rfl) (Or.inl rfl) 2 2025

/-- C7: with at most 10 input records the ranking adapter returns the
input list unchanged, whatever the adapter response is (so no ranking
call is consulted). -/
theorem rank_small_input_unchanged (vehicles : List Vehicle) (resp : RankResp)
    (h : vehicles.length ≤ 10) : rankVehiclesWithLLM vehicles resp = vehicles := by
  unfold rankVehiclesWithLLM
  split_ifs with he
  · exact (List.isEmpty_iff.mp he).symm
  · rfl

/-- Witness for C7: a three-record list is returned unchanged even when
the adapter would answer with indices. -/
theorem rank_small_input_unchanged_witness :
    rankVehiclesWithLLM (vs11.take 3) (RankResp.ok [2, 1]) = vs11.take 3 :=
  rank_small_input_unchanged (vs11.take 3) (RankResp.ok [2, 1]) (by decide)

/-- C3 counterexample: on a page that has a title heading but lacks the
label/value table, parseDetail populates the name field from the
heading, so not every field other than url is empty or null. -/
theorem parseDetail_no_table_name_not_empty :
    (parseDetail (some pageNoTable) "http://x").name = "Toyota Prius 2017" ∧
      "Toyota Prius 2017" ≠ "" := by decide

/-- C3 amended: parseDetail never fails; on an absent page it returns
the record with only url populated, and on a page lacking the expected
table it returns the record with only url and name (the first heading's
text, truncated to 200 characters) populated, every other field empty
or null. -/
theorem parseDetail_minimal_record (url : String) (page : DetailPage)
    (ht : page.table = none) :
    parseDetail none url = initVehicle url ∧
    parseDetail (some page) url =
      { initVehicle url with
          name := match page.h1 with | some t => t.take 200 | none => "" } := by
  constructor
  · rfl
  · rcases page with ⟨h1, tbl⟩
    cases ht
    cases h1 <;> rfl

/-- Witness for C3 amended at a concrete table-less page. -/
theorem parseDetail_minimal_record_witness :
    parseDetail none "u" = initVehicle "u" ∧
    parseDetail (some pageNoTable) "u" =
      { initVehicle "u" with
          name := match pageNoTable.h1 with | some t => t.take 200 | none => "" } :=
  parseDetail_minimal_record "u" pageNoTable rfl

/-- C4 counterexample: handed a non-numeric string as the min-year
bound, the URL builder raises (the bound comparison fails and the
handler re-raises as the UrlBuildError), instead of treating the
malformed bound as unset. -/
theorem makeSearchUrl_string_bound_raises :
    makeSearchUrl none none none (some (PyVal.str "abc")) none none none 1 2025 =
      Except.error UrlBuildError.urlBuild := rfl

/-- With int-or-None bounds every branch of the URL builder returns
normally. -/
theorem makeSearchUrl_ok_of_int_bounds (mk md lc : Option String)
    (b1 b2 b3 b4 : Option Int) (page currentYear : Int) :
    ∃ u, makeSearchUrl mk md lc (b1.map PyVal.int) (b2.map PyVal.int)
      (b3.map PyVal.int) (b4.map PyVal.int) page currentYear = Except.ok u := by
  cases b1 <;> cases b2 <;> cases b3 <;> cases b4 <;>
    · unfold makeSearchUrl
      simp only [Option.map, pyPosCheck, pyNonnegCheck, bind, Except.bind, pure,
        Except.pure]
      split <;> exact ⟨_, rfl⟩

/-- C4 amended: the bound-value parsing that precedes URL construction
lives in the caller (views._int), which coerces malformed (non-numeric)
text to None, i.e. unset; on such parsed bounds the URL builder never
fails.  Handed a non-numeric bound directly, it raises UrlBuildError
(see the counterexample), so only bounds already parsed to int-or-None
are safe. -/
theorem makeSearchUrl_total_on_parsed_bounds (mk md lc : Option String)
    (raw1 raw2 raw3 raw4 : Option String) (page currentYear : Int) :
    ∃ u, makeSearchUrl mk md lc (viewsBound raw1) (viewsBound raw2)
      (viewsBound raw3) (viewsBound raw4) page currentYear = Except.ok u :=
  makeSearchUrl_ok_of_int_bounds mk md lc (viewsInt raw1) (viewsInt raw2)
    (viewsInt raw3) (viewsInt raw4) page currentYear

/-- C5: evaluation of the Stage-2 loop at a stub list longer than the
cap.  With three stubs and limit 2, the event trace ends with a
0.3-second sleep after the second (last-fetched) detail page, because
the delay guard compares the index against len(vehicle_links) - 1
rather than against the number of records actually fetched; this
contradicts the never-after-the-last-fetch intent stated by the spec
and by the comment on the guard. -/
theorem stage2_sleeps_after_capped_last_fetch :
    (stage2Collect netNone stubs3 2).2 =
      [S2Event.fetch "u1", S2Event.sleep, S2Event.fetch "u2", S2Event.sleep] := by
  rfl

/-- Case characterization of applyRow: the row either leaves the dict
unchanged, or updates exactly one field, with the numeric fields coming
from the digit-extraction helpers and the mileage update gated on the
dash/no-digit guard. -/
theorem applyRow_shape (v : Vehicle) (l val : String) :
    applyRow v l val = v ∨
    applyRow v l val = { v with contact := val } ∨
    (∃ p, stripNonDigitsToInt val = some p ∧
      applyRow v l val = { v with price := some p }) ∨
    applyRow v l val = { v with make := val } ∨
    applyRow v l val = { v with model := val } ∨
    (∃ y, firstFourDigitRun val.toList = some y ∧
      applyRow v l val = { v with year := some y }) ∨
    (l = "Mileage (km)" ∧ (val ≠ "" ∧ val ≠ "-" ∧ containsDigit val = true) ∧
      ∃ m, stripNonDigitsToInt val = some m ∧
        applyRow v l val = { v with mileage := some m }) ∨
    applyRow v l val = { v with gear := val } ∨
    applyRow v l val = { v with fuel_type := val } ∨
    (∃ s, applyRow v l val = { v with options := s }) ∨
    (∃ s, applyRow v l val = { v with engine_cc := s }) ∨
    (∃ s, applyRow v l val = { v with details := s }) := by
  by_cases c1 : l = "Contact"
  · refine Or.inr (Or.inl ?_)
    unfold applyRow
    rw [if_pos c1]
  by_cases c2 : l = "Price"
  · by_cases g2 : (decide (val ≠ "") && containsDigitOrComma val) = true
    · rcases hs : stripNonDigitsToInt val with _ | p
      · refine Or.inl ?_
        unfold applyRow
        rw [if_neg c1, if_pos c2, if_pos g2, hs]
      · refine Or.inr (Or.inr (Or.inl ⟨p, rfl, ?_⟩))
        unfold applyRow
        rw [if_neg c1, if_pos c2, if_pos g2, hs]
    · refine Or.inl ?_
      unfold applyRow
      rw [if_neg c1, if_pos c2, if_neg g2]
  by_cases c3 : l = "Make"
  · refine Or.inr (Or.inr (Or.inr (Or.inl ?_)))
    unfold applyRow
    rw [if_neg c1, if_neg c2, if_pos c3]
  by_cases c4 : l = "Model"
  · refine Or.inr (Or.inr (Or.inr (Or.inr (Or.inl ?_))))
    unfold applyRow
    rw [if_neg c1, if_neg c2, if_neg c3, if_pos c4]
  by_cases c5 : l = "YOM"
  · by_cases g5 : val ≠ ""
    · rcases hy : firstFourDigitRun val.toList with _ | y
      · refine Or.inl ?_
        unfold applyRow
        rw [if_neg c1, if_neg c2, if_neg c3, if_neg c4, if_pos c5, if_pos g5, hy]
      · refine Or.inr (Or.inr (Or.inr (Or.inr (Or.inr (Or.inl ⟨y, rfl, ?_⟩)))))
        unfold applyRow
        rw [if_neg c1, if_neg c2, if_neg c3, if_neg c4, if_pos c5, if_pos g5, hy]
    · refine Or.inl ?_
      unfold applyRow
      rw [if_neg c1, if_neg c2, if_neg c3, if_neg c4, if_pos c5, if_neg g5]
  by_cases c6 : l = "Mileage (km)"
  · by_cases g6 : (decide (val ≠ "") && decide (val ≠ "-") && containsDigit val) = true
    · rcases hs : stripNonDigitsToInt val with _ | m
      · refine Or.inl ?_
        unfold applyRow
        rw [if_neg c1, if_neg c2, if_neg c3, if_neg c4, if_neg c5, if_pos c6,
          if_pos g6, hs]
      · have g6' : val ≠ "" ∧ val ≠ "-" ∧ containsDigit val = true := by
          simp only [Bool.and_eq_true, decide_eq_true_eq] at g6
          exact ⟨g6.1.1, g6.1.2, g6.2⟩
        refine Or.inr (Or.inr (Or.inr (Or.inr (Or.inr (Or.inr (Or.inl
          ⟨c6, g6', m, rfl, ?_⟩))))))
        unfold applyRow
        rw [if_neg c1, if_neg c2, if_neg c3, if_neg c4, if_neg c5, if_pos c6,
          if_pos g6, hs]
    · refine Or.inl ?_
      unfold applyRow
      rw [if_neg c1, if_neg c2, if_neg c3, if_neg c4, if_neg c5, if_pos c6, if_neg g6]
  by_cases c7 : l = "Gear"
  · refine Or.inr (Or.inr (Or.inr (Or.inr (Or.inr (Or.inr (Or.inr (Or.inl ?_)))))))
    unfold applyRow
    rw [if_neg c1, if_neg c2, if_neg c3, if_neg c4, if_neg c5, if_neg c6, if_pos c7]
  by_cases c8 : l = "Fuel Type"
  · refine Or.inr (Or.inr (Or.inr (Or.inr (Or.inr (Or.inr (Or.inr (Or.inr
      (Or.inl ?_))))))))
    unfold applyRow
    rw [if_neg c1, if_neg c2, if_neg c3, if_neg c4, if_neg c5, if_neg c6, if_neg c7,
      if_pos c8]
  by_cases c9 : l = "Options"
  · refine Or.inr (Or.inr (Or.inr (Or.inr (Or.inr (Or.inr (Or.inr (Or.inr (Or.inr
      (Or.inl ⟨if val ≠ "" then val.take 500 else "", ?_⟩)))))))))
    unfold applyRow
    rw [if_neg c1, if_neg c2, if_neg c3, if_neg c4, if_neg c5, if_neg c6, if_neg c7,
      if_neg c8, if_pos c9]
  by_cases c10 : l = "Engine (cc)"
  · refine Or.inr (Or.inr (Or.inr (Or.inr (Or.inr (Or.inr (Or.inr (Or.inr (Or.inr
      (Or.inr (Or.inl ⟨if val ≠ "" then val.trim else "", ?_⟩))))))))))
    unfold applyRow
    rw [if_neg c1, if_neg c2, if_neg c3, if_neg c4, if_neg c5, if_neg c6, if_neg c7,
      if_neg c8, if_neg c9, if_pos c10]
  by_cases c11 : l = "Details"
  · refine Or.inr (Or.inr (Or.inr (Or.inr (Or.inr (Or.inr (Or.inr (Or.inr (Or.inr
      (Or.inr (Or.inr ⟨if val ≠ "" then val.take 3000 else "", ?_⟩))))))))))
    unfold applyRow
    rw [if_neg c1, if_neg c2, if_neg c3, if_neg c4, if_neg c5, if_neg c6, if_neg c7,
      if_neg c8, if_neg c9, if_neg c10, if_pos c11]
  · refine Or.inl ?_
    unfold applyRow
    rw [if_neg c1, if_neg c2, if_neg c3, if_neg c4, if_neg c5, if_neg c6, if_neg c7,
      if_neg c8, if_neg c9, if_neg c10, if_neg c11]

/-- A table row whose label is not Mileage (km), or whose value is the
dash placeholder or has no digit, leaves the mileage field unchanged. -/
theorem applyRow_mileage_unset (v : Vehicle) (l val : String)
    (h : l = "Mileage (km)" → val = "-" ∨ containsDigit val = false) :
    (applyRow v l val).mileage = v.mileage := by
  rcases applyRow_shape v l val with
    h0 | h0 | ⟨p, _, h0⟩ | h0 | h0 | ⟨y, _, h0⟩ |
    ⟨hml, hcond, m, _, h0⟩ | h0 | h0 | ⟨s, h0⟩ | ⟨s, h0⟩ | ⟨s, h0⟩ <;>
    try (rw [h0])
  rcases h hml with h1 | h1
  · exact absurd h1 hcond.2.1
  · rw [hcond.2.2] at h1
    exact absurd h1 (by decide)

/-- The table fold leaves mileage unchanged when every Mileage (km) row
carries the dash placeholder or a digit-free value. -/
theorem foldl_stepRow_mileage_unset (rows : List DetailRow) (v : Vehicle)
    (h : ∀ r ∈ rows, r.label = "Mileage (km)" →
      ∀ w, r.value = some w → w = "-" ∨ containsDigit w = false) :
    (rows.foldl stepRow v).mileage = v.mileage := by
  induction rows generalizing v with
  | nil => rfl
  | cons r rest ih =>
    simp only [List.foldl_cons]
    rw [ih _ (fun r' hr' => h r' (List.mem_cons_of_mem _ hr'))]
    unfold stepRow
    rcases hv : r.value with _ | w
    · rfl
    · split_ifs with hl
      · rfl
      · exact applyRow_mileage_unset v r.label w
          (fun hml => h r (List.mem_cons_self r rest) hml w hv)

/-- The derived description and raw_text assembly does not touch the
mileage field. -/
theorem finalizeVehicle_mileage (v : Vehicle) :
    (finalizeVehicle v).mileage = v.mileage := by
  cases v
  rfl

/-- Unfolding of parseDetail on a page with a table, up to the final
derived-field assembly. -/
theorem parseDetail_table_eq (hh : Option String) (rows : List DetailRow)
    (url : String) :
    parseDetail (some ⟨hh, some rows⟩) url =
      finalizeVehicle (rows.foldl stepRow
        (match hh with
          | some t => { initVehicle url with name := t.take 200 }
          | none => initVehicle url)) := by
  cases hh <;> rfl

/-- C8 counterexample: a table may contain a Mileage (km) row with
value exactly the dash and still yield a non-null mileage, because a
later Mileage (km) row with digits sets the field. -/
theorem parseDetail_second_mileage_row_overrides :
    pageTwoMileageRows.table =
      some [⟨"Mileage (km)", some "-"⟩, ⟨"Mileage (km)", some "123,45"⟩] ∧
    (parseDetail (some pageTwoMileageRows) "u").mileage = some 12345 := by
  exact ⟨rfl, rfl⟩

/-- C8 amended: whenever every Mileage (km) row of the detail table has
value exactly the dash, or a value containing no digit, the returned
record's mileage is null, not zero (in particular for a table whose
only Mileage row is the dash). -/
theorem parseDetail_mileage_null (page : DetailPage) (url : String)
    (rows : List DetailRow) (ht : page.table = some rows)
    (h : ∀ r ∈ rows, r.label = "Mileage (km)" →
      ∀ w, r.value = some w → w = "-" ∨ containsDigit w = false) :
    (parseDetail (some page) url).mileage = none := by
  rcases page with ⟨hh, tbl⟩
  cases ht
  rw [parseDetail_table_eq, finalizeVehicle_mileage, foldl_stepRow_mileage_unset rows _ h]
  cases hh <;> rfl

/-- Witness for C8 amended: a table whose only Mileage (km) row is the
dash placeholder yields a null mileage. -/
theorem parseDetail_mileage_null_witness :
    (parseDetail (some pageDashMileage) "u").mileage = none :=
  parseDetail_mileage_null pageDashMileage "u"
    [⟨"Price", some "Rs. 4,500,000"⟩, ⟨"Mileage (km)", some "-"⟩] rfl (by decide)

/-- Digit stripping yields a nonnegative integer whenever it succeeds. -/
theorem stripNonDigitsToInt_nonneg (s : String) (p : Int)
    (h : stripNonDigitsToInt s = some p) : 0 ≤ p := by
  unfold stripNonDigitsToInt at h
  dsimp only at h
  split at h
  · exact absurd h (by simp)
  · cases h
    exact Int.ofNat_nonneg _

/-- The first four-digit run is a nonnegative integer whenever found. -/
theorem firstFourDigitRun_nonneg (l : List Char) :
    ∀ y, firstFourDigitRun l = some y → 0 ≤ y := by
  induction l with
  | nil => intro y h; exact absurd h (by simp [firstFourDigitRun])
  | cons a rest ih =>
    intro y h
    rcases rest with _ | ⟨b, rest1⟩
    · exact absurd h (by simp [firstFourDigitRun])
    rcases rest1 with _ | ⟨c, rest2⟩
    · exact absurd h (by simp [firstFourDigitRun])
    rcases rest2 with _ | ⟨d, rest3⟩
    · exact absurd h (by simp [firstFourDigitRun])
    unfold firstFourDigitRun at h
    split at h
    · cases h
      exact Int.ofNat_nonneg _
    · exact ih y h

/-- One table row preserves nonnegativity of the numeric fields. -/
theorem stepRow_numeric_nonneg (v : Vehicle) (r : DetailRow)
    (hp : ∀ p, v.price = some p → 0 ≤ p)
    (hm : ∀ m, v.mileage = some m → 0 ≤ m)
    (hy : ∀ y, v.year = some y → 0 ≤ y) :
    (∀ p, (stepRow v r).price = some p → 0 ≤ p) ∧
    (∀ m, (stepRow v r).mileage = some m → 0 ≤ m) ∧
    (∀ y, (stepRow v r).year = some y → 0 ≤ y) := by
  have happ : ∀ l val : String,
      (∀ p, (applyRow v l val).price = some p → 0 ≤ p) ∧
      (∀ m, (applyRow v l val).mileage = some m → 0 ≤ m) ∧
      (∀ y, (applyRow v l val).year = some y → 0 ≤ y) := by
    intro l val
    rcases applyRow_shape v l val with
      h0 | h0 | ⟨p, hs, h0⟩ | h0 | h0 | ⟨y, hr4, h0⟩ | ⟨_, _, m, hs, h0⟩ |
      h0 | h0 | ⟨s1, h0⟩ | ⟨s1, h0⟩ | ⟨s1, h0⟩ <;> rw [h0]
    · exact ⟨hp, hm, hy⟩
    · exact ⟨hp, hm, hy⟩
    · refine ⟨?_, hm, hy⟩
      intro q hq
      have hq' : some p = some q := hq
      cases hq'
      exact stripNonDigitsToInt_nonneg val p hs
    · exact ⟨hp, hm, hy⟩
    · exact ⟨hp, hm, hy⟩
    · refine ⟨hp, hm, ?_⟩
      intro q hq
      have hq' : some y = some q := hq
      cases hq'
      exact firstFourDigitRun_nonneg val.toList y hr4
    · refine ⟨hp, ?_, hy⟩
      intro q hq
      have hq' : some m = some q := hq
      cases hq'
      exact stripNonDigitsToInt_nonneg val m hs
    · exact ⟨hp, hm, hy⟩
    · exact ⟨hp, hm, hy⟩
    · exact ⟨hp, hm, hy⟩
    · exact ⟨hp, hm, hy⟩
    · exact ⟨hp, hm, hy⟩
  rcases hv : r.value with _ | w
  · have he : stepRow v r = v := by
      unfold stepRow
      rw [hv]
    rw [he]
    exact ⟨hp, hm, hy⟩
  · by_cases hl : r.label = ""
    · have he : stepRow v r = v := by
        unfold stepRow
        rw [hv]
        dsimp only
        rw [if_pos hl]
      rw [he]
      exact ⟨hp, hm, hy⟩
    · have he : stepRow v r = applyRow v r.label w := by
        unfold stepRow
        rw [hv]
        dsimp only
        rw [if_neg hl]
      rw [he]
      exact happ r.label w

/-- The full table fold preserves nonnegativity of the numeric fields. -/
theorem foldl_stepRow_numeric_nonneg (rows : List DetailRow) (v : Vehicle)
    (hp : ∀ p, v.price = some p → 0 ≤ p)
    (hm : ∀ m, v.mileage = some m → 0 ≤ m)
    (hy : ∀ y, v.year = some y → 0 ≤ y) :
    (∀ p, (rows.foldl stepRow v).price = some p → 0 ≤ p) ∧
    (∀ m, (rows.foldl stepRow v).mileage = some m → 0 ≤ m) ∧
    (∀ y, (rows.foldl stepRow v).year = some y → 0 ≤ y) := by
  induction rows generalizing v with
  | nil => exact ⟨hp, hm, hy⟩
  | cons r rest ih =>
    simp only [List.foldl_cons]
    have hstep := stepRow_numeric_nonneg v r hp hm hy
    exact ih (stepRow v r) hstep.1 hstep.2.1 hstep.2.2

/-- The derived-field assembly does not touch the price field. -/
theorem finalizeVehicle_price (v : Vehicle) :
    (finalizeVehicle v).price = v.price := by
  cases v
  rfl

/-- The derived-field assembly does not touch the year field. -/
theorem finalizeVehicle_year (v : Vehicle) :
    (finalizeVehicle v).year = v.year := by
  cases v
  rfl

/-- C10: for every parsed detail page and url, each of the price,
mileage and year fields of the returned record is either null or a
nonnegative integer: the digit-stripping coercions can never produce a
negative value. -/
theorem parseDetail_numeric_fields_nonneg (soup : Option DetailPage) (url : String) :
    (∀ p, (parseDetail soup url).price = some p → 0 ≤ p) ∧
    (∀ m, (parseDetail soup url).mileage = some m → 0 ≤ m) ∧
    (∀ y, (parseDetail soup url).year = some y → 0 ≤ y) := by
  have hnone : ∀ q : Int, (none : Option Int) = some q → 0 ≤ q := by
    intro q hq
    exact Option.noConfusion hq
  rcases soup with _ | ⟨hh, tbl⟩
  · exact ⟨hnone, hnone, hnone⟩
  rcases tbl with _ | rows
  · cases hh <;> exact ⟨hnone, hnone, hnone⟩
  rw [parseDetail_table_eq]
  rw [finalizeVehicle_price, finalizeVehicle_mileage, finalizeVehicle_year]
  cases hh with
  | none => exact foldl_stepRow_numeric_nonneg rows (initVehicle url) hnone hnone hnone
  | some t =>
    exact foldl_stepRow_numeric_nonneg rows
      { initVehicle url with name := t.take 200 } hnone hnone hnone

/-- Witness for C10 at a page with price, year and mileage all set. -/
theorem parseDetail_numeric_fields_nonneg_witness :
    (0 : Int) ≤ 4500000 ∧ (0 : Int) ≤ 120000 ∧ (0 : Int) ≤ 2017 :=
  ⟨(parseDetail_numeric_fields_nonneg (some pageFull) "u").1 4500000 rfl,
   (parseDetail_numeric_fields_nonneg (some pageFull) "u").2.1 120000 rfl,
   (parseDetail_numeric_fields_nonneg (some pageFull) "u").2.2 2017 rfl⟩

/-- The per-stub body keeps the parsed record except that an empty
parsed name is replaced by a non-empty Stage-1 display name. -/
theorem processStub_spec (net : String → Option DetailPage) (e : Stub) :
    ((parseDetail (stage2FetchDetailPage net e.url) e.url).name = "" ∧ e.name ≠ "" →
      (processStub net e).name = e.name) ∧
    (¬ ((parseDetail (stage2FetchDetailPage net e.url) e.url).name = "" ∧ e.name ≠ "") →
      processStub net e = parseDetail (stage2FetchDetailPage net e.url) e.url) := by
  constructor
  · intro hc
    unfold processStub
    rw [if_pos hc]
  · intro hc
    unfold processStub
    rw [if_neg hc]

/-- C9: every record returned by the Stage-2 loop comes from a stub
with a non-empty url, and its name is the stub's display name exactly
when the parsed name is empty and the stub name is non-empty, the
parsed record being kept unchanged otherwise. -/
theorem stage2_name_fallback (net : String → Option DetailPage)
    (total limit : Nat) (entries : List Stub) :
    ∀ i, ∀ v ∈ (stage2Go net total limit i entries).1, ∃ e, e ∈ entries ∧
      e.url ≠ "" ∧ v = processStub net e ∧
      ((parseDetail (stage2FetchDetailPage net e.url) e.url).name = "" ∧ e.name ≠ "" →
        v.name = e.name) ∧
      (¬ ((parseDetail (stage2FetchDetailPage net e.url) e.url).name = "" ∧
          e.name ≠ "") →
        v = parseDetail (stage2FetchDetailPage net e.url) e.url) := by
  induction entries with
  | nil =>
    intro i v hv
    simp [stage2Go] at hv
  | cons e rest ih =>
    intro i v hv
    unfold stage2Go at hv
    by_cases hlim : limit ≤ i
    · rw [if_pos hlim] at hv
      simp at hv
    · rw [if_neg hlim] at hv
      by_cases hu : e.url = ""
      · rw [if_pos hu] at hv
        rcases ih (i + 1) v hv with ⟨e', he', rest'⟩
        exact ⟨e', List.mem_cons_of_mem e he', rest'⟩
      · rw [if_neg hu] at hv
        dsimp only at hv
        rcases List.mem_cons.mp hv with hveq | hvtail
        · subst hveq
          refine ⟨e, List.mem_cons_self e rest, hu, rfl, ?_, ?_⟩
          · exact (processStub_spec net e).1
          · exact (processStub_spec net e).2
        · rcases ih (i + 1) v hvtail with ⟨e', he', rest'⟩
          exact ⟨e', List.mem_cons_of_mem e he', rest'⟩

/-- Witness for C9: with every detail fetch failing, the parsed name is
empty and the first stub's display name is used. -/
theorem stage2_name_fallback_witness :
    ∃ e, e ∈ stubs3 ∧ e.url ≠ "" ∧
      processStub netNone ⟨"u1", "a"⟩ = processStub netNone e ∧
      ((parseDetail (stage2FetchDetailPage netNone e.url) e.url).name = "" ∧
          e.name ≠ "" →
        (processStub netNone ⟨"u1", "a"⟩).name = e.name) ∧
      (¬ ((parseDetail (stage2FetchDetailPage netNone e.url) e.url).name = "" ∧
          e.name ≠ "") →
        processStub netNone ⟨"u1", "a"⟩ =
          parseDetail (stage2FetchDetailPage netNone e.url) e.url) :=
  stage2_name_fallback netNone 3 20 stubs3 0 (processStub netNone ⟨"u1", "a"⟩)
    (by
      rw [show (stage2Go netNone 3 20 0 stubs3).1 =
        processStub netNone ⟨"u1", "a"⟩ ::
          [processStub netNone ⟨"u2", "b"⟩, processStub netNone ⟨"u3", "c"⟩] from rfl]
      exact List.mem_cons_self _ _)

/-- C2: in Stage 1, an HTTP 403 on the current page aborts the whole
fetch with the fatal AccessDenied error from any loop state (in
particular after earlier pages succeeded); an HTTP error with any other
status is recorded in the error list and the loop continues with the
next page; no other per-page outcome can make the loop fail; and at the
orchestrator level the only fatal errors are warm-up connectivity and
AccessDenied, the Stage-1 abort propagating to the whole fetch. -/
theorem stage1_403_aborts (fetch : Nat → FetchOutcome) :
    (∀ pages links errs e, stage1Go fetch pages links errs = Except.error e →
      e = FatalErr.accessDenied) ∧
    (∀ p rest links errs, links.length < maxResults →
      fetch p = FetchOutcome.httpErr 403 →
      stage1Go fetch (p :: rest) links errs = Except.error FatalErr.accessDenied) ∧
    (∀ p rest links errs s, links.length < maxResults →
      fetch p = FetchOutcome.httpErr s → s ≠ 403 →
      stage1Go fetch (p :: rest) links errs =
        stage1Go fetch rest links
          (errs ++ ["HTTP " ++ toString s ++ " on page " ++ toString p])) ∧
    (∀ warm net maxPages e, fetchListings warm fetch net maxPages = Except.error e →
      e = FatalErr.connectivity ∨ e = FatalErr.accessDenied) ∧
    (∀ net maxPages, stage1 fetch maxPages = Except.error FatalErr.accessDenied →
      fetchListings WarmupOutcome.ok fetch net maxPages =
        Except.error FatalErr.accessDenied) := by
  have part1 : ∀ pages links errs e, stage1Go fetch pages links errs = Except.error e →
      e = FatalErr.accessDenied := by
    intro pages
    induction pages with
    | nil =>
      intro links errs e h
      simp [stage1Go] at h
    | cons p rest ih =>
      intro links errs e h
      unfold stage1Go at h
      by_cases hcap : maxResults ≤ links.length
      · rw [if_pos hcap] at h
        simp at h
      · rw [if_neg hcap] at h
        cases hf : fetch p <;> rw [hf] at h <;> dsimp only at h
        · next cards =>
            by_cases hc : cards.isEmpty
            · rw [if_pos hc] at h
              simp at h
            · rw [if_neg hc] at h
              exact ih _ _ _ h
        · next status =>
            by_cases hs : status = 403
            · rw [if_pos hs] at h
              simp only [Except.error.injEq] at h
              exact h.symm
            · rw [if_neg hs] at h
              exact ih _ _ _ h
        · exact ih _ _ _ h
        · exact ih _ _ _ h
        · exact ih _ _ _ h
        · exact ih _ _ _ h
  refine ⟨part1, ?_, ?_, ?_, ?_⟩
  · intro p rest links errs hlen hf
    unfold stage1Go
    rw [if_neg (by omega : ¬ maxResults ≤ links.length), hf]
    dsimp only
    rw [if_pos rfl]
  · intro p rest links errs s hlen hf hs
    conv_lhs => unfold stage1Go
    rw [if_neg (by omega : ¬ maxResults ≤ links.length), hf]
    dsimp only
    rw [if_neg hs]
  · intro warm net maxPages e h
    cases warm <;> unfold fetchListings at h <;> dsimp only at h
    case timeout =>
      simp only [Except.error.injEq] at h
      exact Or.inl h.symm
    case connErr =>
      simp only [Except.error.injEq] at h
      exact Or.inl h.symm
    case reqErr =>
      simp only [Except.error.injEq] at h
      exact Or.inl h.symm
    case ok =>
      rcases h1 : stage1 fetch maxPages with e' | pair
      · rw [h1] at h
        dsimp only at h
        simp only [Except.error.injEq] at h
        subst h
        exact Or.inr (part1 _ _ _ _ h1)
      · rw [h1] at h
        rcases pair with ⟨links, errs⟩
        dsimp only at h
        by_cases hl : links.isEmpty
        · rw [if_pos hl] at h
          simp at h
        · rw [if_neg hl] at h
          simp at h
  · intro net maxPages h
    unfold fetchListings
    rw [h]

/-- Witness for C2: a 403 on page 2 aborts with AccessDenied from the
loop state in which page 1 already contributed a link. -/
theorem stage1_403_aborts_witness :
    stage1Go fetch403At2 [2, 3] [⟨"u", "n"⟩] [] =
      Except.error FatalErr.accessDenied :=
  (stage1_403_aborts fetch403At2).2.1 2 [3] [⟨"u", "n"⟩] [] (by decide) rfl

/-- The index-fill loop keeps indices in range and, given enough fuel,
reaches 10 chosen indices whenever more than 10 are available: the
inner search always finds an unused index because fewer distinct
indices are used than exist. -/
theorem fillIndices_spec (n : Nat) (hn : 10 < n) :
    ∀ fuel valid, (∀ i ∈ valid, i < n) →
      (∀ i ∈ fillIndices n fuel valid, i < n) ∧
      min (valid.length + fuel) 10 ≤ (fillIndices n fuel valid).length := by
  intro fuel
  induction fuel with
  | zero =>
    intro valid hv
    refine ⟨hv, ?_⟩
    unfold fillIndices
    omega
  | succ fuel ih =>
    intro valid hv
    unfold fillIndices
    by_cases hc : (decide (valid.length < 10) && decide (valid.length < n)) = true
    · rw [if_pos hc]
      simp only [Bool.and_eq_true, decide_eq_true_eq] at hc
      rcases hf : (List.range n).find? (fun i => !(valid.contains i)) with _ | i
      · exfalso
        have hall : ∀ i ∈ List.range n, valid.contains i := by
          intro i hi
          have := List.find?_eq_none.mp hf i hi
          simpa using this
        have hsub : Finset.range n ⊆ valid.toFinset := by
          intro i hi
          rw [Finset.mem_range] at hi
          rw [List.mem_toFinset]
          have hci := hall i (List.mem_range.mpr hi)
          simpa using hci
        have hcard : n ≤ valid.toFinset.card := by
          simpa using Finset.card_le_card hsub
        have hlen : valid.toFinset.card ≤ valid.length := valid.toFinset_card_le
        omega
      · dsimp only
        have hi_mem : i < n := by
          have := List.mem_of_find?_eq_some hf
          simpa using this
        have hv' : ∀ j ∈ valid ++ [i], j < n := by
          intro j hj
          rcases List.mem_append.mp hj with hj | hj
          · exact hv j hj
          · simp at hj
            omega
        have hrec := ih (valid ++ [i]) hv'
        refine ⟨hrec.1, ?_⟩
        have h2 := hrec.2
        simp only [List.length_append, List.length_cons, List.length_nil] at h2
        omega
    · rw [if_neg hc]
      simp only [Bool.and_eq_true, decide_eq_true_eq, not_and, not_lt] at hc
      refine ⟨hv, ?_⟩
      omega

/-- C1 amended: with more than 10 input records, the ranking adapter
returns exactly 10 records for every adapter response, and every
returned record is an element of the input; however a record can appear
more than once when the adapter response itself repeats a valid index
(the no-duplicate bookkeeping applies only to the fill step). -/
theorem rank_returns_ten_from_input (vehicles : List Vehicle) (resp : RankResp)
    (h : 10 < vehicles.length) :
    (rankVehiclesWithLLM vehicles resp).length = 10 ∧
    ∀ v ∈ rankVehiclesWithLLM vehicles resp, v ∈ vehicles := by
  unfold rankVehiclesWithLLM
  rw [if_neg (by
    intro he
    rw [List.isEmpty_iff.mp he] at h
    simp at h)]
  rw [if_neg (by omega)]
  cases resp with
  | fail =>
    refine ⟨?_, ?_⟩
    · rw [List.length_take]
      omega
    · intro v hv
      exact List.take_subset 10 vehicles hv
  | ok ranked =>
    dsimp only
    have hbound : ∀ i ∈ ((ranked.filter
        (fun x => decide (0 ≤ x) && decide (x < (vehicles.length : Int)))).map
          Int.toNat).take 10, i < vehicles.length := by
      intro i hi
      have hi' := List.take_subset _ _ hi
      rcases List.mem_map.mp hi' with ⟨x, hx, hxi⟩
      have hpx := List.of_mem_filter hx
      simp only [Bool.and_eq_true, decide_eq_true_eq] at hpx
      omega
    have hfill := fillIndices_spec vehicles.length h 10 _ hbound
    have hlen10 : 10 ≤ (fillIndices vehicles.length 10
        (((ranked.filter
          (fun x => decide (0 ≤ x) && decide (x < (vehicles.length : Int)))).map
            Int.toNat).take 10)).length := by
      have := hfill.2
      omega
    have hall : (((fillIndices vehicles.length 10
        (((ranked.filter
          (fun x => decide (0 ≤ x) && decide (x < (vehicles.length : Int)))).map
            Int.toNat).take 10)).take 10).all
          (fun i => decide (i < vehicles.length))) = true := by
      rw [List.all_eq_true]
      intro i hi
      exact decide_eq_true (hfill.1 i (List.take_subset _ _ hi))
    rw [if_pos hall]
    refine ⟨?_, ?_⟩
    · rw [List.length_map, List.length_take]
      omega
    · intro v hv
      rcases List.mem_map.mp hv with ⟨i, hi, hvi⟩
      have hin : i < vehicles.length := hfill.1 i (List.take_subset _ _ hi)
      rw [← hvi, List.getD_eq_getElem vehicles default hin]
      exact List.getElem_mem hin

/-- C1 counterexample: on eleven pairwise distinct records, the adapter
response [0, 0] repeats index 0, and the returned top-10 contains the
first record twice: the result is not duplicate-free. -/
theorem rank_duplicate_record :
    vs11.Nodup ∧ ¬ (rankVehiclesWithLLM vs11 (RankResp.ok [0, 0])).Nodup := by
  decide

/-- Witness for C1 amended at eleven records with a failing adapter. -/
theorem rank_returns_ten_from_input_witness :
    (rankVehiclesWithLLM vs11 RankResp.fail).length = 10 ∧
    ∀ v ∈ rankVehiclesWithLLM vs11 RankResp.fail, v ∈ vs11 :=
  rank_returns_ten_from_input vs11 RankResp.fail (by decide)
